import Mathlib

/-!
Verification development for the BHASHASETU client application.

The development shallowly embeds the authentication session store
(`AuthProvider` in `contexts/AuthContext.tsx`), the OAuth callback handler
(`AuthCallback` in `pages/LearnerModule.tsx` bundle), the two navigation
variants (`App` in the auth-free entry file and `AppContent` in the
auth-enabled entry file), and the translation mock module
(`TranslationModule`).  Asynchronous callbacks are modelled as explicit
state-transition functions; backend outcomes are modelled as explicit
parameters (an `Option` error or a fetch-result sum type).
-/

/-- Identity projection of a session, as used by the store
(`session?.user ?? null`).  Supabase users carry identity fields; the email
suffices to distinguish users in the model. -/
structure User where
  email : String
deriving DecidableEq

/-- A Supabase session always carries its (non-null) user. -/
structure Session where
  user : User
deriving DecidableEq

/-- The state held by `AuthProvider`: the three `useState` cells
`user`, `session`, `loading` of `contexts/AuthContext.tsx`. -/
structure AuthState where
  user : Option User
  session : Option Session
  loading : Bool
deriving DecidableEq

/-- Initial state of `AuthProvider`:
`useState<User | null>(null)`, `useState<Session | null>(null)`,
`useState(true)`. -/
def initialState : AuthState :=
  { user := none, session := none, loading := true }

/-- `getInitialSession` body: `setSession(session); setUser(session?.user ?? null);
setLoading(false)` applied to the fetched session. -/
def getInitialSession (fetched : Option Session) (s : AuthState) : AuthState :=
  { s with
    session := fetched
    user := Option.map Session.user fetched
    loading := false }

/-- The `onAuthStateChange` subscription callback:
`setSession(session); setUser(session?.user ?? null); setLoading(false)`. -/
def onAuthEvent (ev : Option Session) (s : AuthState) : AuthState :=
  { s with
    session := ev
    user := Option.map Session.user ev
    loading := false }

/-- Delivery of a sequence of auth-change events to the store, in order. -/
def applyEvents (events : List (Option Session)) (s : AuthState) : AuthState :=
  events.foldl (fun st ev => onAuthEvent ev st) s

/-- Outcome of one `signInWithGoogle()` call: the resulting store state,
whether the failure alert was shown, the `redirectTo` URL passed to the
backend OAuth initiation, and whether an exception escaped the function. -/
structure SignInResult where
  state : AuthState
  alerted : Bool
  redirectTo : String
  threw : Bool
deriving DecidableEq

/-- `signInWithGoogle` of `contexts/AuthContext.tsx`: `setLoading(true)`,
then `supabase.auth.signInWithOAuth({provider, redirectTo:
origin + "/auth/callback"})`; the surrounding `try/catch` turns a returned
`error` into `alert(...)` plus `setLoading(false)` and never rethrows.
`backendError` is the `error` field the backend call resolves with. -/
def signInWithGoogle (origin : String) (backendError : Option String)
    (s : AuthState) : SignInResult :=
  let s₁ : AuthState := { s with loading := true }
  let url : String := origin ++ "/auth/callback"
  match backendError with
  | some _ =>
      { state := { s₁ with loading := false }
        alerted := true
        redirectTo := url
        threw := false }
  | none =>
      { state := s₁, alerted := false, redirectTo := url, threw := false }

/-- Outcome of one `signOut()` call: whether the failure alert was shown,
where the browser was navigated, and whether an exception escaped. -/
structure SignOutResult where
  alerted : Bool
  navigatedTo : Option String
  threw : Bool
deriving DecidableEq

/-- `signOut` of `contexts/AuthContext.tsx`: `supabase.auth.signOut()` inside
`try/catch` (a returned `error` is thrown and caught, showing the alert),
followed unconditionally by `window.location.href = "/"`. -/
def signOut (backendError : Option String) : SignOutResult :=
  let alerted : Bool :=
    match backendError with
    | some _ => true
    | none => false
  { alerted := alerted, navigatedTo := some "/", threw := false }

/-- `useAuth` of `contexts/AuthContext.tsx`: reads the context and throws
when it is `undefined` (no surrounding `AuthProvider`); the provider's
context value is the store state (plus the two operation closures, which
carry no comparable data). -/
def useAuth (ctx : Option AuthState) : Except String AuthState :=
  match ctx with
  | none => Except.error "useAuth must be used within an AuthProvider"
  | some c => Except.ok c

/-- Result of `supabase.auth.getSession()` as observed by the callback
handler: either an `error`, or `data.session` (possibly null). -/
inductive GetSessionResult where
  | err (e : String)
  | ok (s : Option Session)
deriving DecidableEq

/-- Outcome of the callback handler body: the `window.location.href` target
and how many times `supabase.auth.getSession()` was invoked. -/
structure CallbackResult where
  redirect : String
  fetchCount : Nat
deriving DecidableEq

/-- Body of `handleAuthCallback` in `AuthCallback`
(`pages/LearnerModule.tsx` bundle), after the fixed 1000 ms delay: if the
context `user` is present, go to `/`; otherwise fetch the session once and
branch on error / present session / absent session. -/
def handleAuthCallbackCore (user : Option User) (fetch : GetSessionResult) :
    CallbackResult :=
  match user with
  | some _ => { redirect := "/", fetchCount := 0 }
  | none =>
      match fetch with
      | .err _ => { redirect := "/?error=auth_failed", fetchCount := 1 }
      | .ok (some _) => { redirect := "/", fetchCount := 1 }
      | .ok none => { redirect := "/", fetchCount := 1 }

/-- The whole handler: the `try/catch` around the body routes any unexpected
exception to `/?error=unexpected_error`. -/
def handleAuthCallback (unexpectedError : Bool) (user : Option User)
    (fetch : GetSessionResult) : String :=
  if unexpectedError then "/?error=unexpected_error"
  else (handleAuthCallbackCore user fetch).redirect

/-- The closed set of screens:
`type Page = 'landing' | 'learner' | 'admin' | 'translation' | 'voice'`. -/
inductive Page where
  | landing
  | learner
  | admin
  | translation
  | voice
deriving DecidableEq

/-- The screen components the two `renderPage` switches can mount. -/
inductive Presenter where
  | landingPage
  | learnerModule
  | adminDashboard
  | translationModule
  | voiceModule
deriving DecidableEq

/-- `setCurrentPage` as used for navigation: a pure state replace. -/
def navigate (target : Page) (_current : Page) : Page := target

/-- `useState<Page>('landing')` in both entry-file variants. -/
def initialPage : Page := Page.landing

/-- `renderPage` switch of the auth-free `App` variant (the `default` arm
also yields the landing page but is unreachable on the closed set). -/
def appRenderPage : Page → Presenter
  | .landing => .landingPage
  | .learner => .learnerModule
  | .admin => .adminDashboard
  | .translation => .translationModule
  | .voice => .voiceModule

/-- `renderPage` switch of the auth-enabled `AppContent` variant; textually
the same five-way switch. -/
def appContentRenderPage : Page → Presenter
  | .landing => .landingPage
  | .learner => .learnerModule
  | .admin => .adminDashboard
  | .translation => .translationModule
  | .voice => .voiceModule

/-- What one render pass of `AppContent` mounts. -/
inductive View where
  | authCallbackView
  | page (p : Presenter)
deriving DecidableEq

/-- `AppContent` render: `window.location.pathname === '/auth/callback'`
short-circuits to the callback view; otherwise the switch on
`currentPage` picks the presenter. -/
def appContentView (path : String) (_user : Option User) (current : Page) :
    View :=
  if path = "/auth/callback" then View.authCallbackView
  else View.page (appContentRenderPage current)

/-- The navigation `AppContent` schedules with `setTimeout(..., 0)` during a
render pass: only when the callback path is not active, a user is present
and the current page is `landing`. -/
def scheduledNavigation (path : String) (user : Option User) (current : Page) :
    Option Page :=
  if path = "/auth/callback" then none
  else
    match user, current with
    | some _, .landing => some Page.learner
    | _, _ => none

/-- A glossary row of `TranslationModule`. -/
structure GlossaryTerm where
  term : String
  translation : String
deriving DecidableEq

/-- The local `useState` cells of `TranslationModule`. -/
structure TranslationState where
  sourceLanguage : String
  targetLanguage : String
  regionalAdaptation : Bool
  glossaryTerms : List GlossaryTerm
  isTranslating : Bool
deriving DecidableEq

/-- Initial `TranslationModule` state. -/
def initialTranslationState : TranslationState :=
  { sourceLanguage := "English"
    targetLanguage := "Hindi"
    regionalAdaptation := true
    glossaryTerms := [⟨"Welding", "वेल्डिंग"⟩, ⟨"Arc", "चाप"⟩]
    isTranslating := false }

/-- The hardcoded `sourceText` constant of `TranslationModule`. -/
def sourceText : String :=
  "Introduction to Welding Safety\n\nSafety is the most critical aspect of welding operations. All welders must wear appropriate personal protective equipment (PPE) including welding helmets, gloves, and protective clothing. The welding area should be well-ventilated to prevent exposure to harmful fumes.\n\nKey Safety Equipment:\n• Welding helmet with proper shade lens\n• Leather welding gloves\n• Fire-resistant clothing\n• Safety boots with steel toes"

/-- The hardcoded `translatedText` constant of `TranslationModule`. -/
def translatedText : String :=
  "वेल्डिंग सुरक्षा का परिचय\n\nवेल्डिंग संचालन में सुरक्षा सबसे महत्वपूर्ण पहलू है। सभी वेल्डरों को उचित व्यक्तिगत सुरक्षा उपकरण (पीपीई) पहनना चाहिए जिसमें वेल्डिंग हेलमेट, दस्ताने और सुरक्षात्मक कपड़े शामिल हैं। हानिकारक धुएं के संपर्क को रोकने के लिए वेल्डिंग क्षेत्र में अच्छा वेंटिलेशन होना चाहिए।\n\nमुख्य सुरक्षा उपकरण:\n• उचित शेड लेंस वाला वेल्डिंग हेलमेट\n• चमड़े के वेल्डिंग दस्ताने\n• आग प्रतिरोधी कपड़े\n• स्टील के पंजों वाले सुरक्षा जूते"

/-- `handleTranslate`: `setIsTranslating(true)` and schedule the timeout. -/
def handleTranslate (s : TranslationState) : TranslationState :=
  { s with isTranslating := true }

/-- The `setTimeout` callback firing 2000 ms later:
`setIsTranslating(false)`. -/
def translateTimeoutFires (s : TranslationState) : TranslationState :=
  { s with isTranslating := false }

/-- The source pane of the JSX always renders the `sourceText` constant,
whatever the component state. -/
def displayedSourceText (_ : TranslationState) : String := sourceText

/-- The target pane of the JSX always renders the `translatedText` constant,
whatever the component state. -/
def displayedTargetText (_ : TranslationState) : String := translatedText

/-- The callback overwrites every field, so its result is independent of the
previous state. -/
theorem onAuthEvent_const (ev : Option Session) (s t : AuthState) :
    onAuthEvent ev s = onAuthEvent ev t := rfl

theorem applyEvents_cons (ev : Option Session) (events : List (Option Session))
    (s : AuthState) :
    applyEvents (ev :: events) s = applyEvents events (onAuthEvent ev s) := rfl

theorem applyEvents_append (l₁ l₂ : List (Option Session)) (s : AuthState) :
    applyEvents (l₁ ++ l₂) s = applyEvents l₂ (applyEvents l₁ s) := by
  simp [applyEvents, List.foldl_append]

/-- Once `loading` is false, no delivered event can make it true again. -/
theorem applyEvents_loading (events : List (Option Session)) :
    ∀ s : AuthState, s.loading = false → (applyEvents events s).loading = false := by
  induction events with
  | nil => intro s h; simpa using h
  | cons ev rest ih =>
      intro s _
      rw [applyEvents_cons]
      exact ih (onAuthEvent ev s) rfl

/-- The store's `user` always mirrors `session` through `Session.user`. -/
theorem applyEvents_mirror (events : List (Option Session)) :
    ∀ s : AuthState, s.user = Option.map Session.user s.session →
      (applyEvents events s).user
        = Option.map Session.user (applyEvents events s).session := by
  induction events with
  | nil => intro s h; simpa using h
  | cons ev rest ih =>
      intro s _
      rw [applyEvents_cons]
      exact ih (onAuthEvent ev s) rfl

/-- C1: After initialization, for every sequence of delivered auth-change
events ending in event `e`, the store's `user` equals the user of `e`'s
session (null when that session is null); `loading` is false already after
the initial fetch, after the whole sequence, and—even if the initial fetch
had not resolved—after the first delivered event. -/
theorem auth_store_tracks_last_event (f : Option Session)
    (es : List (Option Session)) (e : Option Session) :
    (applyEvents (es ++ [e]) (getInitialSession f initialState)).user
        = Option.map Session.user e
    ∧ (applyEvents (es ++ [e]) (getInitialSession f initialState)).loading = false
    ∧ (getInitialSession f initialState).loading = false
    ∧ (applyEvents (e :: es) initialState).loading = false := by
  refine ⟨?_, ?_, rfl, ?_⟩
  · rw [applyEvents_append]
    rfl
  · rw [applyEvents_append]
    rfl
  · rw [applyEvents_cons]
    exact applyEvents_loading es (onAuthEvent e initialState) rfl

/-- C5: after the initial fetch and any sequence of auth-change events, the
store's `user` is null iff its `session` is null (indeed `user` is exactly
the `user` of the current session), and the store holds at most one current
session. -/
theorem auth_store_user_iff_session (f : Option Session)
    (events : List (Option Session)) :
    ((applyEvents events (getInitialSession f initialState)).user = none
      ↔ (applyEvents events (getInitialSession f initialState)).session = none)
    ∧ (applyEvents events (getInitialSession f initialState)).user
        = Option.map Session.user
            (applyEvents events (getInitialSession f initialState)).session
    ∧ (applyEvents events (getInitialSession f initialState)).session.toList.length
        ≤ 1 := by
  have hm := applyEvents_mirror events (getInitialSession f initialState) rfl
  refine ⟨?_, hm, ?_⟩
  · rw [hm]
    cases (applyEvents events (getInitialSession f initialState)).session <;> simp
  · cases (applyEvents events (getInitialSession f initialState)).session <;> simp

/-- C2: the callback handler redirects to root (query-free) when the store
already reports a user, without fetching; otherwise it fetches exactly once
and redirects to `/?error=auth_failed` on fetch error, to root on a present
session, and to root on an absent session; any unexpected exception yields
`/?error=unexpected_error`. -/
theorem auth_callback_redirects (u : User) (e : String) (sess : Session)
    (fetch : GetSessionResult) (uo : Option User) (f₂ : GetSessionResult) :
    handleAuthCallbackCore (some u) fetch = { redirect := "/", fetchCount := 0 }
    ∧ '?' ∉ (handleAuthCallbackCore (some u) fetch).redirect.data
    ∧ handleAuthCallbackCore none (.err e)
        = { redirect := "/?error=auth_failed", fetchCount := 1 }
    ∧ handleAuthCallbackCore none (.ok (some sess))
        = { redirect := "/", fetchCount := 1 }
    ∧ handleAuthCallbackCore none (.ok none)
        = { redirect := "/", fetchCount := 1 }
    ∧ handleAuthCallback true uo f₂ = "/?error=unexpected_error" := by
  refine ⟨rfl, ?_, rfl, rfl, rfl, rfl⟩
  show '?' ∉ ("/" : String).data
  decide

/-- C3: `signOut()` never lets an exception escape, shows the failure alert
exactly when the backend reports an error, and unconditionally navigates to
the application root. -/
theorem signOut_always_navigates_root (err : Option String) :
    (signOut err).threw = false
    ∧ (signOut err).navigatedTo = some "/"
    ∧ ((signOut err).alerted = true ↔ err.isSome = true) := by
  cases err <;> simp [signOut]

/-- C4: `signInWithGoogle()` passes redirect URL `origin ++ "/auth/callback"`
to the backend; on a backend error it alerts, resets `loading` to false,
leaves the (null) `user` unchanged and does not throw; on success the only
local state change is `loading := true`. -/
theorem signInWithGoogle_error_path (origin : String) (e : String)
    (s : AuthState) (h : s.user = none) :
    (signInWithGoogle origin (some e) s).redirectTo = origin ++ "/auth/callback"
    ∧ (signInWithGoogle origin (some e) s).alerted = true
    ∧ (signInWithGoogle origin (some e) s).state.loading = false
    ∧ (signInWithGoogle origin (some e) s).state.user = none
    ∧ (signInWithGoogle origin (some e) s).threw = false
    ∧ (signInWithGoogle origin none s).redirectTo = origin ++ "/auth/callback"
    ∧ (signInWithGoogle origin none s).state = { s with loading := true }
    ∧ (signInWithGoogle origin none s).alerted = false
    ∧ (signInWithGoogle origin none s).threw = false := by
  refine ⟨rfl, rfl, rfl, ?_, rfl, rfl, rfl, rfl, rfl⟩
  simpa [signInWithGoogle] using h

theorem signInWithGoogle_error_path_witness :
    initialState.user = none
    ∧ ((signInWithGoogle "https://app.example" (some "boom")
          initialState).redirectTo = "https://app.example" ++ "/auth/callback"
      ∧ (signInWithGoogle "https://app.example" (some "boom")
          initialState).alerted = true
      ∧ (signInWithGoogle "https://app.example" (some "boom")
          initialState).state.loading = false
      ∧ (signInWithGoogle "https://app.example" (some "boom")
          initialState).state.user = none
      ∧ (signInWithGoogle "https://app.example" (some "boom")
          initialState).threw = false
      ∧ (signInWithGoogle "https://app.example" none
          initialState).redirectTo = "https://app.example" ++ "/auth/callback"
      ∧ (signInWithGoogle "https://app.example" none initialState).state
          = { initialState with loading := true }
      ∧ (signInWithGoogle "https://app.example" none
          initialState).alerted = false
      ∧ (signInWithGoogle "https://app.example" none
          initialState).threw = false) :=
  ⟨rfl, signInWithGoogle_error_path "https://app.example" "boom" initialState rfl⟩

/-- C6: away from the callback path, a present user together with a current
`landing` screen schedules a next-tick navigation to `learner` and to no
other module. -/
theorem landing_redirects_to_learner (path : String) (u : User)
    (h : path ≠ "/auth/callback") :
    scheduledNavigation path (some u) Page.landing = some Page.learner
    ∧ scheduledNavigation path (some u) Page.landing ≠ some Page.admin
    ∧ scheduledNavigation path (some u) Page.landing ≠ some Page.translation
    ∧ scheduledNavigation path (some u) Page.landing ≠ some Page.voice := by
  simp [scheduledNavigation, h]

theorem landing_redirects_to_learner_witness :
    ("/" : String) ≠ "/auth/callback"
    ∧ (scheduledNavigation "/" (some (User.mk "learner@example.com"))
          Page.landing = some Page.learner
      ∧ scheduledNavigation "/" (some (User.mk "learner@example.com"))
          Page.landing ≠ some Page.admin
      ∧ scheduledNavigation "/" (some (User.mk "learner@example.com"))
          Page.landing ≠ some Page.translation
      ∧ scheduledNavigation "/" (some (User.mk "learner@example.com"))
          Page.landing ≠ some Page.voice) :=
  ⟨by decide,
   landing_redirects_to_learner "/" (User.mk "learner@example.com") (by decide)⟩

/-- C7: `navigate` is idempotent on the closed screen set (in particular for
repeated `navigate('learner')`), each of the five screen values selects its
corresponding presenter, and the navigation state starts at `landing`. -/
theorem navigate_idempotent (t p : Page) :
    navigate t (navigate t p) = navigate t p
    ∧ navigate Page.learner (navigate Page.learner p) = navigate Page.learner p
    ∧ appContentRenderPage Page.landing = Presenter.landingPage
    ∧ appContentRenderPage Page.learner = Presenter.learnerModule
    ∧ appContentRenderPage Page.admin = Presenter.adminDashboard
    ∧ appContentRenderPage Page.translation = Presenter.translationModule
    ∧ appContentRenderPage Page.voice = Presenter.voiceModule
    ∧ initialPage = Page.landing :=
  ⟨rfl, rfl, rfl, rfl, rfl, rfl, rfl, rfl⟩

/-- C9: `useAuth` throws exactly when no `AuthProvider` supplied a context
value, and otherwise returns the provider's value unchanged. -/
theorem useAuth_contract (c : AuthState) :
    useAuth none = Except.error "useAuth must be used within an AuthProvider"
    ∧ useAuth (some c) = Except.ok c :=
  ⟨rfl, rfl⟩

/-- C10: with no user present and away from the callback path, the
auth-enabled `AppContent` variant mounts exactly the presenter the auth-free
`App` variant mounts for every screen value. -/
theorem app_variants_agree (p : Page) (path : String)
    (h : path ≠ "/auth/callback") :
    appContentView path none p = View.page (appRenderPage p)
    ∧ appContentRenderPage p = appRenderPage p := by
  constructor
  · cases p <;> simp [appContentView, h, appContentRenderPage, appRenderPage]
  · cases p <;> rfl

theorem app_variants_agree_witness :
    ("/" : String) ≠ "/auth/callback"
    ∧ (appContentView "/" none Page.landing
          = View.page (appRenderPage Page.landing)
      ∧ appContentRenderPage Page.landing = appRenderPage Page.landing) :=
  ⟨by decide, app_variants_agree Page.landing "/" (by decide)⟩

/-- C8 fails on the code: the translate operation never swaps the displayed
text.  Both hardcoded strings are rendered in their panes already before the
fixed delay elapses (in particular the target pane shows the translated
string, not the original), and the timeout changes no displayed text. -/
theorem translation_no_swap_counterexample :
    displayedTargetText (handleTranslate initialTranslationState) = translatedText
    ∧ displayedSourceText (handleTranslate initialTranslationState) = sourceText
    ∧ displayedTargetText
        (translateTimeoutFires (handleTranslate initialTranslationState))
      = displayedTargetText (handleTranslate initialTranslationState)
    ∧ displayedSourceText
        (translateTimeoutFires (handleTranslate initialTranslationState))
      = displayedSourceText (handleTranslate initialTranslationState)
    ∧ sourceText ≠ translatedText := by
  refine ⟨rfl, rfl, rfl, rfl, ?_⟩
  simp [sourceText, translatedText]

/-- C8 (amended): invoking translate sets the `isTranslating` flag, the
fixed-delay timeout resets it, and the two hardcoded strings are displayed
unchanged in their panes throughout. -/
theorem translation_toggle_amended (s : TranslationState) :
    (handleTranslate s).isTranslating = true
    ∧ (translateTimeoutFires (handleTranslate s)).isTranslating = false
    ∧ displayedSourceText (handleTranslate s) = sourceText
    ∧ displayedTargetText (handleTranslate s) = translatedText
    ∧ displayedTargetText (translateTimeoutFires (handleTranslate s))
        = displayedTargetText s
    ∧ displayedSourceText (translateTimeoutFires (handleTranslate s))
        = displayedSourceText s :=
  ⟨rfl, rfl, rfl, rfl, rfl, rfl⟩
